import Mathlib

/-!
Shallow embedding of the moderation subsystem of HustleBot
(src/Python/main.py): per-user flood tracking, spam keyword and
suspicious-pattern classification, a CAPTCHA verification workflow, a
warning/mute/ban escalation policy, and the per-event orchestration
(`moderate_message` / `handle_message_moderation`).

Modelling conventions:
  - UserId is `Nat` (Telegram ids are integers).
  - Timestamps are `Nat` seconds; `datetime.now()` becomes an explicit
    `now : Nat` argument threaded to each event.
  - Python's `timedelta.seconds` attribute of `now - t` is
    `((now : Int) - t) % 86400` (Python normalizes a timedelta so that
    its `seconds` field is the total duration modulo one day).
  - `random.randint(1, 10)` becomes explicit arguments `n1 n2 : Nat`
    carried by the event, with the range 1..10 stated as a hypothesis
    where a claim needs it.
  - Python sets and dicts keyed by user id become functions
    `Nat → Bool` / `Nat → Option _`; `collections.deque(maxlen = n)`
    becomes a list with explicit eviction of the oldest entries.
  - The sqlite side effects that the moderation code performs are kept
    abstractly in the state: `log_moderation_action` appends to a list
    `modLog`, and `set_user_verification` / `is_user_verified` read and
    write a flag `dbVerified`.
  - Outbound Telegram calls (replies, deletions, admin notifications)
    become an explicit list of `Effect` intents returned by each handler.
-/

/-- Flood limit `flood_limits['messages_per_minute']` from
`ModerationSystem.__init__`. -/
def messages_per_minute : Nat := 10

/-- Flood limit `flood_limits['commands_per_minute']` from
`ModerationSystem.__init__`. -/
def commands_per_minute : Nat := 5

/-- Flood limit `flood_limits['same_message_limit']` from
`ModerationSystem.__init__`. -/
def same_message_limit : Nat := 3

/-- Append to a `deque(maxlen = cap)`: add `t` at the right and drop
entries at the left once the length exceeds `cap`. -/
def dequeAppend (cap : Nat) (xs : List Nat) (t : Nat) : List Nat :=
  let ys := xs ++ [t]
  ys.drop (ys.length - cap)

/-- Models Python's `(now - t).seconds`: the seconds field of a
normalized timedelta, i.e. the signed difference modulo one day. -/
def pySeconds (now t : Nat) : Int :=
  ((now : Int) - (t : Int)) % 86400

/-- Models `list(w)[-10:]`: the last ten elements (the whole list when
it is shorter). -/
def lastTen (xs : List Nat) : List Nat :=
  xs.drop (xs.length - 10)

/-- Models `str(msg_time)` for a stored window entry: the string
rendering of the timestamp (the code compares these strings against the
message text in its repetition check). -/
def timeSig (t : Nat) : String := toString t

/-- Result of `is_flood_spam`: the boolean verdict together with the
user's message window after the current timestamp was appended (the
Python method mutates `self.user_messages[user_id]` in place). -/
structure FloodCheck where
  flagged : Bool
  window : List Nat
deriving Repr

/-- Embeds `ModerationSystem.is_flood_spam`: append `now` to the user's
message window (capacity 50), flag when more than
`messages_per_minute` entries are recent (`(now - msg).seconds < 60`),
otherwise flag when at least `same_message_limit` of the last ten
entries render to exactly the message text. -/
def is_flood_spam (window : List Nat) (now : Nat) (messageText : String) : FloodCheck :=
  let w := dequeAppend 50 window now
  let recentMsgs := w.filter (fun t => decide (pySeconds now t < 60))
  if recentMsgs.length > messages_per_minute then ⟨true, w⟩
  else
    let recentTextList := lastTen w
    let sameCount := (recentTextList.filter (fun t => timeSig t == messageText)).length
    if sameCount ≥ same_message_limit then ⟨true, w⟩
    else ⟨false, w⟩

/-- Embeds `ModerationSystem.is_command_spam`: append `now` to the
user's command window (capacity 20) and flag when more than
`commands_per_minute` entries are recent. -/
def is_command_spam (window : List Nat) (now : Nat) : Bool × List Nat :=
  let w := dequeAppend 20 window now
  let recentCmds := w.filter (fun t => decide (pySeconds now t < 60))
  (recentCmds.length > commands_per_minute, w)

/-- Does `needle` occur at the very front of `hay`? Helper for the
substring test. -/
def charsBeginWith : List Char → List Char → Bool
  | _, [] => true
  | [], _ :: _ => false
  | a :: hs, b :: ns => a == b && charsBeginWith hs ns

/-- Models Python's `needle in hay` on strings viewed as char lists:
`needle` occurs contiguously somewhere in `hay`. -/
def charsHaveSub : List Char → List Char → Bool
  | [], needle => needle.isEmpty
  | c :: t, needle => charsBeginWith (c :: t) needle || charsHaveSub t needle

/-- Models Python's `keyword in text`: contiguous substring test. -/
def strHasSub (hay needle : String) : Bool :=
  charsHaveSub hay.toList needle.toList

/-- The `spam_keywords` table from `ModerationSystem.__init__`, in the
dict's insertion order (Python preserves it): scam, then promo, then
raid. -/
def spam_keywords : List (String × List String) :=
  [("scam", ["airdrop", "free crypto", "pump", "moonshot", "guaranteed profit",
             "double your", "investment opportunity", "click here", "limited time",
             "dm me", "telegram.me", "t.me/", "bit.ly", "tinyurl"]),
   ("promo", ["join my channel", "subscribe", "follow me", "check my bio",
              "promotion", "advertisement", "buy now", "special offer"]),
   ("raid", ["raid", "spam", "flood", "attack", "mass message"])]

/-- The nested loop of `contains_spam_keywords`: scan categories in
table order and return the first category one of whose keywords is a
substring of the (already lowercased) text. -/
def scanKeywords : List (String × List String) → String → Bool × String
  | [], _ => (false, "")
  | (cat, kws) :: rest, textLower =>
    if kws.any (fun kw => strHasSub textLower kw) then (true, cat)
    else scanKeywords rest textLower

/-- Lowercase one ASCII letter, as Python's `str.lower()` does on the
characters the keyword table can match. -/
def toLowerChar (c : Char) : Char :=
  if c ≥ 'A' && c ≤ 'Z' then Char.ofNat (c.toNat + 32) else c

/-- Models Python's `str.lower()` character by character. -/
def pyLower (s : String) : String :=
  ⟨s.toList.map toLowerChar⟩

/-- Embeds `ModerationSystem.contains_spam_keywords`: lowercase the
text, then scan the keyword table in order. -/
def contains_spam_keywords (text : String) : Bool × String :=
  scanKeywords spam_keywords (pyLower text)

/-- ASCII letter or digit, the character class `[a-zA-Z0-9]`. -/
def isAlnumAscii (c : Char) : Bool :=
  (c ≥ 'a' && c ≤ 'z') || (c ≥ 'A' && c ≤ 'Z') || (c ≥ '0' && c ≤ '9')

/-- ASCII letter, the character class `[a-zA-Z]`. -/
def isLetterAscii (c : Char) : Bool :=
  (c ≥ 'a' && c ≤ 'z') || (c ≥ 'A' && c ≤ 'Z')

/-- The regex word-character class `[a-zA-Z0-9_]` (`\w` for ASCII). -/
def isWordCharAscii (c : Char) : Bool :=
  isAlnumAscii c || c == '_'

/-- Character class `[a-zA-Z0-9\-\.]` of the URL pattern's host part. -/
def urlHostChar (c : Char) : Bool :=
  isAlnumAscii c || c == '-' || c == '.'

/-- Length of the longest run of characters satisfying `p`, an
accumulator pass; `cur` is the current run, `best` the best seen. -/
def maxRunAux (p : Char → Bool) : List Char → Nat → Nat → Nat
  | [], cur, best => max cur best
  | c :: t, cur, best =>
    if p c then maxRunAux p t (cur + 1) best
    else maxRunAux p t 0 (max cur best)

/-- Does the text contain `n` consecutive characters satisfying `p`?
Models `re.search` of a `{n,}` repetition of a character class. -/
def hasRunGe (p : Char → Bool) (n : Nat) (cs : List Char) : Bool :=
  n ≤ maxRunAux p cs 0 0

/-- After at least one host character was consumed, can the remaining
input continue as `[a-zA-Z0-9\-\.]*\.[a-zA-Z]{2,}`? Either the dot and
two letters are matched right here, or the next character extends the
host part. Mirrors the regex engine's backtracking alternatives. -/
def urlAfterHost : List Char → Bool
  | [] => false
  | c :: rest =>
    (c == '.' &&
      (match rest with
       | a :: b :: _ => isLetterAscii a && isLetterAscii b
       | _ => false))
    || (urlHostChar c && urlAfterHost rest)

/-- Does `[a-zA-Z0-9\-\.]+\.[a-zA-Z]{2,}` match at the start of the
input? -/
def urlHostMatch : List Char → Bool
  | [] => false
  | c :: rest => urlHostChar c && urlAfterHost rest

/-- Does `(http|https)://[a-zA-Z0-9\-\.]+\.[a-zA-Z]{2,}` match at the
start of the input? A match through the `https` alternative includes a
match of `http` followed by `s://`, so trying both alternatives here is
exactly the regex's behaviour. -/
def urlMatchAt (cs : List Char) : Bool :=
  (charsBeginWith cs ("http://".toList) && urlHostMatch (cs.drop 7))
  || (charsBeginWith cs ("https://".toList) && urlHostMatch (cs.drop 8))

/-- Models `re.search` of the URL pattern: a match starting at some
position of the text. -/
def searchUrl : List Char → Bool
  | [] => false
  | c :: t => urlMatchAt (c :: t) || searchUrl t

/-- Does `@[a-zA-Z0-9_]{5,}` match at the start of the input? -/
def mentionAt : List Char → Bool
  | '@' :: rest => (rest.take 5).length == 5 && (rest.take 5).all isWordCharAscii
  | _ => false

/-- Models `re.search` of the mention pattern `@[a-zA-Z0-9_]{5,}`. -/
def searchMention : List Char → Bool
  | [] => false
  | c :: t => mentionAt (c :: t) || searchMention t

/-- Scanner for `\b\d{10,}\b`: `run` is the length of the digit run
currently being read and `okStart` records whether that run began at a
word boundary. A run of at least ten digits matches exactly when it
begins at a boundary and is followed by a non-word character or the end
of the text. -/
def digitRunAux : List Char → Nat → Bool → Bool
  | [], run, okStart => okStart && run ≥ 10
  | c :: t, run, okStart =>
    if c.isDigit then digitRunAux t (run + 1) okStart
    else
      (okStart && run ≥ 10 && !isWordCharAscii c)
      || digitRunAux t 0 (!isWordCharAscii c)

/-- Models `re.search` of `\b\d{10,}\b`. -/
def searchLongDigits (cs : List Char) : Bool :=
  digitRunAux cs 0 true

/-- Embeds `ModerationSystem.is_suspicious_pattern`: any of the four
`suspicious_patterns` regexes matches somewhere in the text (long
alphanumeric runs of 20 or more, URLs, mentions of 5 or more word
characters, digit runs of 10 or more between word boundaries). -/
def is_suspicious_pattern (text : String) : Bool :=
  let cs := text.toList
  hasRunGe isAlnumAscii 20 cs || searchUrl cs || searchMention cs || searchLongDigits cs

/-- Embeds `ModerationSystem.generate_captcha` with the two
`random.randint(1, 10)` draws made explicit arguments: the question
text and the expected answer, the decimal string of the sum. -/
def generate_captcha (n1 n2 : Nat) : String × String :=
  (s!"What is {n1} + {n2}?", toString (n1 + n2))

/-- ASCII whitespace as stripped by Python's `str.strip()`: space, tab,
newline, carriage return, vertical tab, form feed. -/
def isSpaceChar (c : Char) : Bool :=
  c == ' ' || c == '\t' || c == '\n' || c == '\r' || c == '\x0b' || c == '\x0c'

/-- Models Python's `str.strip()`: drop whitespace from both ends. -/
def pyStrip (s : String) : String :=
  ⟨((s.toList.dropWhile isSpaceChar).reverse.dropWhile isSpaceChar).reverse⟩

/-- One `pending_verification` entry: the expected answer string, the
number of failed attempts so far, and the issuance timestamp. -/
structure PendingEntry where
  answer : String
  attempts : Nat
  timestamp : Nat
deriving DecidableEq, Repr

/-- One row of the `moderation_logs` table as written by
`log_moderation_action`: subject user, action, reason, and the acting
admin when there is one. -/
structure LogEntry where
  subject : Nat
  action : String
  reason : String
  adminId : Option Nat
deriving DecidableEq, Repr

/-- An outbound side-effect intent of the moderation code: a reply sent
to the chat, the deletion of the offending message, or an admin
notification fan-out. -/
inductive Effect where
  | reply (text : String)
  | deleteMessage
  | notifyAdmins (text : String)
deriving DecidableEq, Repr

/-- Pointwise update of a function-backed map, the counterpart of a
Python dict or set mutation at one key. -/
def fnUpdate {α : Type} (f : Nat → α) (k : Nat) (v : α) : Nat → α :=
  fun x => if x == k then v else f x

/-- The mutable moderation state: the fields of `ModerationSystem`
(windows, warnings, membership sets, pending verifications, admin set)
together with the two sqlite-backed pieces the moderation code touches
(the `user_verification` flag and the `moderation_logs` table). -/
structure MState where
  userMessages : Nat → List Nat
  userCommands : Nat → List Nat
  userWarnings : Nat → Nat
  mutedUsers : Nat → Bool
  bannedUsers : Nat → Bool
  pendingVerification : Nat → Option PendingEntry
  verifiedUsers : Nat → Bool
  adminIds : Nat → Bool
  dbVerified : Nat → Bool
  modLog : List LogEntry

/-- Embeds `ModerationSystem.is_admin`. -/
def is_admin (s : MState) (uid : Nat) : Bool := s.adminIds uid

/-- Embeds `ModerationSystem.is_muted`. -/
def is_muted (s : MState) (uid : Nat) : Bool := s.mutedUsers uid

/-- Embeds `ModerationSystem.is_banned`. -/
def is_banned (s : MState) (uid : Nat) : Bool := s.bannedUsers uid

/-- Embeds `ModerationSystem.add_admin`. -/
def add_admin (s : MState) (uid : Nat) : MState :=
  { s with adminIds := fnUpdate s.adminIds uid true }

/-- Embeds `ModerationSystem.mute_user`. -/
def mute_user (s : MState) (uid : Nat) : MState :=
  { s with mutedUsers := fnUpdate s.mutedUsers uid true }

/-- Embeds `ModerationSystem.unmute_user` (`set.discard`). -/
def unmute_user (s : MState) (uid : Nat) : MState :=
  { s with mutedUsers := fnUpdate s.mutedUsers uid false }

/-- Embeds `ModerationSystem.ban_user`. -/
def ban_user (s : MState) (uid : Nat) : MState :=
  { s with bannedUsers := fnUpdate s.bannedUsers uid true }

/-- Embeds `banned_users.discard` as done by `unban_user_command`. -/
def unban_user (s : MState) (uid : Nat) : MState :=
  { s with bannedUsers := fnUpdate s.bannedUsers uid false }

/-- Embeds `ModerationSystem.add_warning`: increment and return the
user's warning count. -/
def add_warning (s : MState) (uid : Nat) : Nat × MState :=
  let w := s.userWarnings uid + 1
  (w, { s with userWarnings := fnUpdate s.userWarnings uid w })

/-- Embeds `HustleBot.log_moderation_action`: append one row to the
`moderation_logs` table. -/
def log_moderation_action (s : MState) (uid : Nat) (action reason : String)
    (adminId : Option Nat) : MState :=
  { s with modLog := s.modLog ++ [⟨uid, action, reason, adminId⟩] }

/-- Embeds `HustleBot.set_user_verification` restricted to the flag the
moderation code reads back. -/
def set_user_verification (s : MState) (uid : Nat) (v : Bool) : MState :=
  { s with dbVerified := fnUpdate s.dbVerified uid v }

/-- Embeds `HustleBot.is_user_verified`: the persisted flag. -/
def is_user_verified (s : MState) (uid : Nat) : Bool := s.dbVerified uid

/-- State plus outbound effects of one handler invocation. -/
structure StepResult where
  state : MState
  effects : List Effect

/-- The verification prompt text sent by
`handle_new_user_verification`, with the user's first name and the
CAPTCHA question interpolated. -/
def verificationRequestText (firstName question : String) : String :=
  s!"🛡️ SECURITY VERIFICATION REQUIRED\n\nWelcome {firstName}! To prevent spam and raids, please solve this simple math problem:\n\n❓ {question}\n\nReply with just the number. You have 3 attempts."

/-- Embeds `handle_new_user_verification`: when a challenge is already
pending only a reminder is sent and the state is untouched; otherwise a
CAPTCHA is generated and a fresh pending entry with zero attempts is
stored. -/
def handle_new_user_verification (s : MState) (uid : Nat) (firstName : String)
    (now n1 n2 : Nat) : StepResult :=
  match s.pendingVerification uid with
  | some _ => ⟨s, [Effect.reply "⏳ Please complete your verification first!"]⟩
  | none =>
    let qa := generate_captcha n1 n2
    let s1 := { s with
      pendingVerification := fnUpdate s.pendingVerification uid (some ⟨qa.2, 0, now⟩) }
    ⟨s1, [Effect.reply (verificationRequestText firstName qa.1)]⟩

/-- The success banner sent on a correct CAPTCHA answer. -/
def verificationSuccessText : String :=
  "✅ VERIFICATION SUCCESSFUL!\n\nWelcome to HustleBot! You can now use all features.\nType /start to begin your hustle journey! 💪"

/-- Embeds `handle_verification_attempt`: a user with no pending entry
is ignored; a correct (trimmed, string-equal) answer deletes the entry,
adds the user to the verified set and persists the flag; a wrong answer
increments the attempt counter, and on reaching three failures the
entry is deleted and the user is banned and logged. -/
def handle_verification_attempt (s : MState) (uid : Nat)
    (firstName username text : String) : StepResult :=
  match s.pendingVerification uid with
  | none => ⟨s, []⟩
  | some vd =>
    if pyStrip text == vd.answer then
      let s1 := set_user_verification
        { s with
          pendingVerification := fnUpdate s.pendingVerification uid none,
          verifiedUsers := fnUpdate s.verifiedUsers uid true } uid true
      ⟨s1, [Effect.reply verificationSuccessText,
            Effect.notifyAdmins s!"✅ User {firstName} (@{username}) verified successfully"]⟩
    else
      let attempts1 := vd.attempts + 1
      if attempts1 ≥ 3 then
        let s1 := log_moderation_action
          (ban_user { s with pendingVerification := fnUpdate s.pendingVerification uid none } uid)
          uid "BANNED" "Failed verification 3 times" none
        ⟨s1, [Effect.reply "🚫 Verification failed! You have been banned for security reasons.",
              Effect.notifyAdmins s!"🚫 User {firstName} (@{username}) banned for failed verification"]⟩
      else
        let remaining := 3 - attempts1
        let s1 := { s with
          pendingVerification := fnUpdate s.pendingVerification uid (some { vd with attempts := attempts1 }) }
        ⟨s1, [Effect.reply s!"❌ Wrong answer! {remaining} attempts remaining."]⟩

/-- Result of `moderate_message` / `handle_message_moderation`: the
state, the outbound effects in the order the code emits them, and the
boolean the Python function returns (`true` means the event proceeds to
normal processing). -/
structure ModResult where
  state : MState
  effects : List Effect
  passed : Bool

/-- Embeds `moderate_message`: admins pass unconditionally; an
unverified user is routed to challenge issuance; otherwise the flood
check runs (recording the message), then the keyword check, then the
suspicious-pattern check, with the escalation and side effects of each
branch. -/
def moderate_message (s : MState) (uid : Nat) (firstName username messageText : String)
    (now n1 n2 : Nat) : ModResult :=
  if is_admin s uid then ⟨s, [], true⟩
  else if !is_user_verified s uid && !s.verifiedUsers uid then
    let r := handle_new_user_verification s uid firstName now n1 n2
    ⟨r.state, r.effects, false⟩
  else
    let fc := is_flood_spam (s.userMessages uid) now messageText
    let s1 := { s with userMessages := fnUpdate s.userMessages uid fc.window }
    if fc.flagged then
      let aw := add_warning s1 uid
      let warnings := aw.1
      let s2 := aw.2
      if warnings ≥ 3 then
        let s3 := log_moderation_action (mute_user s2 uid) uid "MUTED" "Flood spam (3 warnings)" none
        ⟨s3, [Effect.reply s!"🔇 {firstName} has been muted for flood spamming!",
              Effect.notifyAdmins s!"🚨 User {firstName} (@{username}) muted for flood spam",
              Effect.deleteMessage], false⟩
      else
        ⟨s2, [Effect.reply s!"⚠️ Warning {warnings}/3: Please slow down your messages!",
              Effect.deleteMessage], false⟩
    else
      let ks := contains_spam_keywords messageText
      let spamType := ks.2
      if ks.1 then
        let s2 := log_moderation_action s1 uid "MESSAGE_DELETED" s!"Spam keywords: {spamType}" none
        ⟨s2, [Effect.deleteMessage,
              Effect.reply s!"🚫 Message deleted: Contains {spamType} content",
              Effect.notifyAdmins s!"🚨 Deleted {spamType} message from {firstName} (@{username})"], false⟩
      else if is_suspicious_pattern messageText then
        let preview := messageText.take 100
        ⟨s1, [Effect.reply "⚠️ Your message contains suspicious patterns. Please contact an admin if this was a mistake.",
              Effect.notifyAdmins s!"🔍 Suspicious pattern detected from {firstName} (@{username}): {preview}..."], true⟩
      else ⟨s1, [], true⟩

/-- Embeds `handle_message_moderation`, the handler registered for all
plain-text non-command messages: a user with a pending entry has the
message consumed as a verification attempt, everyone else goes through
`moderate_message`. -/
def handle_message_moderation (s : MState) (uid : Nat)
    (firstName username text : String) (now n1 n2 : Nat) : ModResult :=
  if (s.pendingVerification uid).isSome then
    let r := handle_verification_attempt s uid firstName username text
    ⟨r.state, r.effects, false⟩
  else
    moderate_message s uid firstName username text now n1 n2

/-- Embeds `check_user_permissions`: banned users get the banned
notice, muted users the muted notice, everyone else passes; no state is
touched. -/
def check_user_permissions (s : MState) (uid : Nat) : Bool × List Effect :=
  if is_banned s uid then (false, [Effect.reply "🚫 You are banned from using this bot."])
  else if is_muted s uid then (false, [Effect.reply "🔇 You are currently muted."])
  else (true, [])

/-- Embeds `handle_command_rate_limit`: admins skip the check, others
have the command recorded and are stopped when the command window
floods. -/
def handle_command_rate_limit (s : MState) (uid : Nat) (now : Nat) :
    Bool × MState × List Effect :=
  if is_admin s uid then (true, s, [])
  else
    let cc := is_command_spam (s.userCommands uid) now
    let s1 := { s with userCommands := fnUpdate s.userCommands uid cc.2 }
    if cc.1 then (false, s1, [Effect.reply "⚠️ You\x27re using commands too quickly! Please slow down."])
    else (true, s1, [])

/-- Embeds the state mutation of `add_admin_command` (the successful
parse path): only an admin caller takes effect, adding the target to
the admin set and logging the action. -/
def add_admin_command (s : MState) (actor target : Nat) : MState :=
  if !is_admin s actor then s
  else log_moderation_action (add_admin s target) target "ADMIN_ADDED" "Added by admin" (some actor)

/-- Embeds the state mutation of `mute_user_command`. -/
def mute_user_command (s : MState) (actor target : Nat) : MState :=
  if !is_admin s actor then s
  else log_moderation_action (mute_user s target) target "MUTED" "Muted by admin" (some actor)

/-- Embeds the state mutation of `unmute_user_command`. -/
def unmute_user_command (s : MState) (actor target : Nat) : MState :=
  if !is_admin s actor then s
  else log_moderation_action (unmute_user s target) target "UNMUTED" "Unmuted by admin" (some actor)

/-- Embeds the state mutation of `ban_user_command`. -/
def ban_user_command (s : MState) (actor target : Nat) : MState :=
  if !is_admin s actor then s
  else log_moderation_action (ban_user s target) target "BANNED" "Banned by admin" (some actor)

/-- Embeds the state mutation of `unban_user_command`. -/
def unban_user_command (s : MState) (actor target : Nat) : MState :=
  if !is_admin s actor then s
  else log_moderation_action (unban_user s target) target "UNBANNED" "Unbanned by admin" (some actor)

/-- One inbound event of the moderation system, carrying the data the
corresponding Python handler reads: the acting user, free-text content,
the current time, and the two CAPTCHA draws for the paths that may
issue a challenge. -/
inductive Op where
  | textMessage (uid : Nat) (firstName username text : String) (now n1 n2 : Nat)
  | photoMessage (uid : Nat) (firstName username caption : String) (now n1 n2 : Nat)
  | commandEvent (uid : Nat) (now : Nat)
  | addAdminCmd (actor target : Nat)
  | muteCmd (actor target : Nat)
  | unmuteCmd (actor target : Nat)
  | banCmd (actor target : Nat)
  | unbanCmd (actor target : Nat)

/-- The state transition of one inbound event: plain text goes through
`handle_message_moderation`; photos go through `check_user_permissions`
then `moderate_message` (as in `handle_meme_submission`); a rate-limited
command records into the command window via `handle_command_rate_limit`;
the admin commands mutate the membership sets. -/
def applyOp (s : MState) : Op → MState
  | .textMessage uid fn un text now n1 n2 =>
    (handle_message_moderation s uid fn un text now n1 n2).state
  | .photoMessage uid fn un caption now n1 n2 =>
    if (check_user_permissions s uid).1 then (moderate_message s uid fn un caption now n1 n2).state
    else s
  | .commandEvent uid now => (handle_command_rate_limit s uid now).2.1
  | .addAdminCmd a t => add_admin_command s a t
  | .muteCmd a t => mute_user_command s a t
  | .unmuteCmd a t => unmute_user_command s a t
  | .banCmd a t => ban_user_command s a t
  | .unbanCmd a t => unban_user_command s a t

/-- A sequence of inbound events applied in order. -/
def applyOps (s : MState) (ops : List Op) : MState :=
  ops.foldl applyOp s

/-- The initial state of `ModerationSystem.__init__`: empty windows,
no warnings, empty membership sets and log, and the configured initial
admin set (the source comment "set these for your admins" makes the
initial admin ids deployment configuration). -/
def initState (admins : List Nat) : MState :=
  { userMessages := fun _ => []
    userCommands := fun _ => []
    userWarnings := fun _ => 0
    mutedUsers := fun _ => false
    bannedUsers := fun _ => false
    pendingVerification := fun _ => none
    verifiedUsers := fun _ => false
    adminIds := fun u => admins.contains u
    dbVerified := fun _ => false
    modLog := [] }

/-- Does some keyword of the list occur as a substring of the lowered
text? The inner loop condition of `contains_spam_keywords`. -/
def keywordHit (textLower : String) (kws : List String) : Bool :=
  kws.any (fun kw => strHasSub textLower kw)

/-- Case analysis on a pointwise map update. -/
theorem fnUpdate_cases {α : Type} (f : Nat → α) (k : Nat) (v : α) (x : Nat) :
    fnUpdate f k v x = v ∨ fnUpdate f k v x = f x := by
  unfold fnUpdate
  split <;> simp

/-- The keyword scan returns `(false, "")` exactly when no category of
the table has a matching keyword. -/
theorem scanKeywords_false_iff (table : List (String × List String)) (tl : String) :
    scanKeywords table tl = (false, "") ↔ ∀ e ∈ table, keywordHit tl e.2 = false := by
  induction table with
  | nil => simp [scanKeywords]
  | cons hd rest ih =>
    obtain ⟨cat, kws⟩ := hd
    cases h : kws.any (fun kw => strHasSub tl kw) with
    | true =>
      constructor
      · intro hEq
        simp [scanKeywords, h] at hEq
      · intro hAll
        have hk := hAll (cat, kws) (by simp)
        simp [keywordHit, h] at hk
    | false =>
      have hscan : scanKeywords ((cat, kws) :: rest) tl = scanKeywords rest tl := by
        simp [scanKeywords, h]
      rw [hscan, ih, List.forall_mem_cons]
      constructor
      · intro hrest
        refine ⟨?_, hrest⟩
        simp only [keywordHit]
        exact h
      · exact fun hh => hh.2

/-- The keyword scan returns `(true, c)` exactly when `c` is the first
category of the table one of whose keywords matches: the table splits
at `c`, every earlier category has no matching keyword, and `c` has
one. -/
theorem scanKeywords_true_iff (table : List (String × List String)) (tl c : String) :
    scanKeywords table tl = (true, c) ↔
      ∃ pre kws post, table = pre ++ (c, kws) :: post
        ∧ (∀ e ∈ pre, keywordHit tl e.2 = false)
        ∧ keywordHit tl kws = true := by
  induction table with
  | nil =>
    constructor
    · intro hEq
      simp [scanKeywords] at hEq
    · rintro ⟨pre, kws, post, hsplit, -, -⟩
      exact absurd hsplit.symm (by simp)
  | cons hd rest ih =>
    obtain ⟨cat, kws0⟩ := hd
    cases h : kws0.any (fun kw => strHasSub tl kw) with
    | true =>
      have hscan : scanKeywords ((cat, kws0) :: rest) tl = (true, cat) := by
        simp [scanKeywords, h]
      rw [hscan]
      constructor
      · intro hEq
        simp only [Prod.mk.injEq, true_and] at hEq
        subst hEq
        refine ⟨[], kws0, rest, by simp, by simp, ?_⟩
        simp only [keywordHit]
        exact h
      · rintro ⟨pre, kws, post, hsplit, hpre, hkw⟩
        cases pre with
        | nil =>
          simp at hsplit
          simp [hsplit.1.1]
        | cons p pre2 =>
          simp at hsplit
          have hp := hpre p (by simp)
          rw [← hsplit.1] at hp
          simp [keywordHit, h] at hp
    | false =>
      have hscan : scanKeywords ((cat, kws0) :: rest) tl = scanKeywords rest tl := by
        simp [scanKeywords, h]
      rw [hscan, ih]
      constructor
      · rintro ⟨pre, kws, post, hsplit, hpre, hkw⟩
        refine ⟨(cat, kws0) :: pre, kws, post, by rw [hsplit]; rfl, ?_, hkw⟩
        intro e he
        rcases List.mem_cons.mp he with he | he
        · rw [he]
          simp only [keywordHit]
          exact h
        · exact hpre e he
      · rintro ⟨pre, kws, post, hsplit, hpre, hkw⟩
        cases pre with
        | nil =>
          simp at hsplit
          rw [← hsplit.1.2] at hkw
          simp [keywordHit, h] at hkw
        | cons p pre2 =>
          simp at hsplit
          exact ⟨pre2, kws, post, hsplit.2, fun e he => hpre e (List.mem_cons_of_mem p he), hkw⟩

/-- When the scan's boolean is false, the category string is empty. -/
theorem scanKeywords_false_empty (table : List (String × List String)) (tl : String)
    (h : (scanKeywords table tl).1 = false) : scanKeywords table tl = (false, "") := by
  induction table with
  | nil => rfl
  | cons hd rest ih =>
    obtain ⟨cat, kws⟩ := hd
    cases hk : kws.any (fun kw => strHasSub tl kw) with
    | true => simp [scanKeywords, hk] at h
    | false =>
      simp only [scanKeywords, hk] at h ⊢
      simp only [Bool.false_eq_true, if_false]
      exact ih h

/-- C8: `contains_spam_keywords` is a case-insensitive substring search
over the keyword table in table order (scam, promo, raid): it returns
`(true, c)` exactly when `c` is the earliest category with a keyword
occurring in the lowercased text, and `(false, "")` exactly when no
keyword of any category matches. -/
theorem contains_spam_keywords_first_category (text : String) :
    spam_keywords.map Prod.fst = ["scam", "promo", "raid"]
    ∧ (∀ c, contains_spam_keywords text = (true, c) ↔
        ∃ pre kws post, spam_keywords = pre ++ (c, kws) :: post
          ∧ (∀ e ∈ pre, keywordHit (pyLower text) e.2 = false)
          ∧ keywordHit (pyLower text) kws = true)
    ∧ (contains_spam_keywords text = (false, "") ↔
        ∀ e ∈ spam_keywords, keywordHit (pyLower text) e.2 = false)
    ∧ ((contains_spam_keywords text).1 = false → contains_spam_keywords text = (false, "")) :=
  ⟨rfl,
   fun c => scanKeywords_true_iff spam_keywords (pyLower text) c,
   scanKeywords_false_iff spam_keywords (pyLower text),
   scanKeywords_false_empty spam_keywords (pyLower text)⟩

/-- C2: whenever at least `same_message_limit` (= 3) of the ten most
recent entries of the user's message window (after the current message
is recorded) render to exactly the submitted text, `is_flood_spam`
returns true. -/
theorem flood_repetition_flags (window : List Nat) (now : Nat) (messageText : String)
    (h : same_message_limit ≤
      ((lastTen (dequeAppend 50 window now)).filter (fun t => timeSig t == messageText)).length) :
    (is_flood_spam window now messageText).flagged = true := by
  simp only [is_flood_spam]
  split
  · rfl
  · rfl

/-- Witness for C2 at a concrete window: three stored entries render to
"5" and the submitted text is "5", so the message is flagged. -/
theorem flood_repetition_flags_witness :
    same_message_limit ≤
      ((lastTen (dequeAppend 50 [5, 5, 5] 6)).filter (fun t => timeSig t == "5")).length
    ∧ (is_flood_spam [5, 5, 5] 6 "5").flagged = true :=
  ⟨by decide, flood_repetition_flags [5, 5, 5] 6 "5" (by decide)⟩

/-- A concrete message window for the C4 boundary analysis: one entry
86410 seconds old (a day and ten seconds) and nine entries from the
last minute. -/
def c4Window : List Nat :=
  [50, 86420, 86421, 86422, 86423, 86424, 86425, 86426, 86427, 86428]

/-- C4 (code-bug evidence): after recording the current message at time
86460, exactly ten window entries lie within the true trailing
60-second interval and the repetition condition does not hold, yet
`is_flood_spam` returns true: the entry recorded 86410 seconds earlier
is counted as recent because `(now - msg).seconds` wraps modulo one
day. -/
theorem flood_day_wrap_boundary_bug :
    ((dequeAppend 50 c4Window 86460).filter (fun t => decide (86460 - t < 60))).length = 10
    ∧ ((lastTen (dequeAppend 50 c4Window 86460)).filter
        (fun t => timeSig t == "hello")).length = 0
    ∧ (is_flood_spam c4Window 86460 "hello").flagged = true := by
  decide

/-- A verification attempt by a user with no pending entry returns at
once with no state change and no effect (`if user.id not in
pending_verification: return`). -/
theorem hva_no_pending (s : MState) (uid : Nat) (fn un text : String)
    (h : s.pendingVerification uid = none) :
    handle_verification_attempt s uid fn un text = ⟨s, []⟩ := by
  simp [handle_verification_attempt, h]

/-- C6: the challenge round trip. `generate_captcha` produces the
question "What is A + B?" and stores the decimal string of A + B as the
expected answer; issuing while a challenge is pending leaves the state
unchanged; issuing on a fresh user stores the answer with zero
attempts; a correct (trimmed, string-equal) submission destroys the
pending entry and verifies the user, and a second submission afterwards
finds no pending entry and changes nothing. -/
theorem challenge_round_trip
    (s : MState) (uid : Nat) (fn un : String) (now n1 n2 : Nat)
    (_h1 : 1 ≤ n1) (_h2 : n1 ≤ 10) (_h3 : 1 ≤ n2) (_h4 : n2 ≤ 10) :
    generate_captcha n1 n2 = (s!"What is {n1} + {n2}?", toString (n1 + n2))
    ∧ (∀ e, s.pendingVerification uid = some e →
        (handle_new_user_verification s uid fn now n1 n2).state = s)
    ∧ (s.pendingVerification uid = none →
        (handle_new_user_verification s uid fn now n1 n2).state.pendingVerification uid
          = some ⟨toString (n1 + n2), 0, now⟩)
    ∧ (∀ e text, s.pendingVerification uid = some e → pyStrip text = e.answer →
        (handle_verification_attempt s uid fn un text).state.pendingVerification uid = none
        ∧ (handle_verification_attempt s uid fn un text).state.verifiedUsers uid = true
        ∧ ∀ text2,
            handle_verification_attempt
              (handle_verification_attempt s uid fn un text).state uid fn un text2
            = ⟨(handle_verification_attempt s uid fn un text).state, []⟩) := by
  refine ⟨rfl, ?_, ?_, ?_⟩
  · intro e he
    simp [handle_new_user_verification, he]
  · intro he
    simp [handle_new_user_verification, he, generate_captcha, fnUpdate]
  · intro e text he ht
    have hbeq : (pyStrip text == e.answer) = true := beq_iff_eq.mpr ht
    have hpend : (handle_verification_attempt s uid fn un text).state.pendingVerification uid
        = none := by
      simp [handle_verification_attempt, he, hbeq, set_user_verification, fnUpdate]
    refine ⟨hpend, ?_, ?_⟩
    · simp [handle_verification_attempt, he, hbeq, set_user_verification, fnUpdate]
    · intro text2
      exact hva_no_pending _ uid fn un text2 hpend

/-- A state with a challenge already issued to user 2, used to witness
the round-trip theorem at a concrete input. -/
def c6State : MState :=
  (handle_new_user_verification (initState []) 2 "Ann" 5 3 4).state

/-- Witness for C6 at user 2 with the draws 3 and 4. -/
theorem challenge_round_trip_witness :
    (1 ≤ 3 ∧ 3 ≤ 10 ∧ 1 ≤ 4 ∧ 4 ≤ 10)
    ∧ (generate_captcha 3 4 = ("What is 3 + 4?", "7")
      ∧ (∀ e, c6State.pendingVerification 2 = some e →
          (handle_new_user_verification c6State 2 "Ann" 6 3 4).state = c6State)
      ∧ (c6State.pendingVerification 2 = none →
          (handle_new_user_verification c6State 2 "Ann" 6 3 4).state.pendingVerification 2
            = some ⟨"7", 0, 6⟩)
      ∧ (∀ e text, c6State.pendingVerification 2 = some e → pyStrip text = e.answer →
          (handle_verification_attempt c6State 2 "Ann" "ann" text).state.pendingVerification 2 = none
          ∧ (handle_verification_attempt c6State 2 "Ann" "ann" text).state.verifiedUsers 2 = true
          ∧ ∀ text2,
              handle_verification_attempt
                (handle_verification_attempt c6State 2 "Ann" "ann" text).state 2 "Ann" "ann" text2
              = ⟨(handle_verification_attempt c6State 2 "Ann" "ann" text).state, []⟩)) :=
  ⟨⟨by decide, by decide, by decide, by decide⟩,
   challenge_round_trip c6State 2 "Ann" "ann" 6 3 4 (by decide) (by decide) (by decide) (by decide)⟩

/-- C5: the third wrong answer destroys the pending entry, bans the
user, and appends the "BANNED" log row; every later submission by that
user finds no pending entry and changes nothing. -/
theorem third_wrong_answer_bans
    (s : MState) (uid : Nat) (fn un text : String) (e : PendingEntry)
    (hp : s.pendingVerification uid = some e)
    (ha : e.attempts = 2)
    (hw : pyStrip text ≠ e.answer) :
    (handle_verification_attempt s uid fn un text).state.pendingVerification uid = none
    ∧ (handle_verification_attempt s uid fn un text).state.bannedUsers uid = true
    ∧ (handle_verification_attempt s uid fn un text).state.modLog
        = s.modLog ++ [⟨uid, "BANNED", "Failed verification 3 times", none⟩]
    ∧ ∀ text2,
        handle_verification_attempt
          (handle_verification_attempt s uid fn un text).state uid fn un text2
        = ⟨(handle_verification_attempt s uid fn un text).state, []⟩ := by
  have hbeq : (pyStrip text == e.answer) = false := beq_eq_false_iff_ne.mpr hw
  have hpend : (handle_verification_attempt s uid fn un text).state.pendingVerification uid
      = none := by
    simp [handle_verification_attempt, hp, hbeq, ha, ban_user, log_moderation_action, fnUpdate]
  refine ⟨hpend, ?_, ?_, ?_⟩
  · simp [handle_verification_attempt, hp, hbeq, ha, ban_user, log_moderation_action, fnUpdate]
  · simp [handle_verification_attempt, hp, hbeq, ha, ban_user, log_moderation_action, fnUpdate]
  · intro text2
    exact hva_no_pending _ uid fn un text2 hpend

/-- A state whose user 2 has a pending challenge with the answer "7"
and two failed attempts already recorded. -/
def c5State : MState :=
  { initState [] with pendingVerification := fun u => if u == 2 then some ⟨"7", 2, 0⟩ else none }

/-- Witness for C5: user 2's third wrong answer "9" bans them, and a
fourth submission is a no-op. -/
theorem third_wrong_answer_bans_witness :
    c5State.pendingVerification 2 = some ⟨"7", 2, 0⟩
    ∧ (PendingEntry.mk "7" 2 0).attempts = 2
    ∧ pyStrip "9" ≠ (PendingEntry.mk "7" 2 0).answer
    ∧ ((handle_verification_attempt c5State 2 "Bob" "bob" "9").state.pendingVerification 2 = none
      ∧ (handle_verification_attempt c5State 2 "Bob" "bob" "9").state.bannedUsers 2 = true
      ∧ (handle_verification_attempt c5State 2 "Bob" "bob" "9").state.modLog
          = c5State.modLog ++ [⟨2, "BANNED", "Failed verification 3 times", none⟩]
      ∧ ∀ text2,
          handle_verification_attempt
            (handle_verification_attempt c5State 2 "Bob" "bob" "9").state 2 "Bob" "bob" text2
          = ⟨(handle_verification_attempt c5State 2 "Bob" "bob" "9").state, []⟩) :=
  ⟨by decide, by decide, by decide,
   third_wrong_answer_bans c5State 2 "Bob" "bob" "9" ⟨"7", 2, 0⟩ (by decide) (by decide) (by decide)⟩

/-- C3 (amended): an admin with no pending verification entry passes
the plain-text pipeline unconditionally: the state is unchanged (so no
flood recording and no challenge issuance), no effect is emitted, and
the event proceeds to normal processing. -/
theorem admin_bypass_without_pending
    (s : MState) (uid : Nat) (fn un text : String) (now n1 n2 : Nat)
    (hadm : is_admin s uid = true)
    (hpend : s.pendingVerification uid = none) :
    handle_message_moderation s uid fn un text now n1 n2 = ⟨s, [], true⟩ := by
  simp [handle_message_moderation, hpend, moderate_message, hadm]

/-- Witness for the amended C3 at the configured admin 1 in the initial
state. -/
theorem admin_bypass_without_pending_witness :
    is_admin (initState [1]) 1 = true
    ∧ (initState [1]).pendingVerification 1 = none
    ∧ handle_message_moderation (initState [1]) 1 "Ada" "ada" "hello" 0 3 4
        = ⟨initState [1], [], true⟩ :=
  ⟨by decide, rfl,
   admin_bypass_without_pending (initState [1]) 1 "Ada" "ada" "hello" 0 3 4 (by decide) rfl⟩

/-- A reachable state in which user 2 was issued a challenge while a
plain member and was then promoted to admin by admin 1. -/
def c3State : MState :=
  applyOps (initState [1])
    [Op.textMessage 2 "Bob" "bob" "hi" 0 3 4, Op.addAdminCmd 1 2]

/-- C3 counterexample: in the reachable state `c3State` user 2 is an
admin, yet their next plain-text message is consumed as a verification
answer — the pending entry's attempt counter changes and the event does
not proceed — refuting "admins are never subject to verification checks
for any input". -/
theorem admin_pending_answer_consumed :
    c3State.adminIds 2 = true
    ∧ c3State.pendingVerification 2 = some ⟨"7", 0, 0⟩
    ∧ (handle_message_moderation c3State 2 "Bob" "bob" "0" 1 9 9).state.pendingVerification 2
        = some ⟨"7", 1, 0⟩
    ∧ (handle_message_moderation c3State 2 "Bob" "bob" "0" 1 9 9).passed = false := by
  decide

/-- A reachable state in which user 5 completed verification and was
then banned by admin 1. -/
def c1State : MState :=
  applyOps (initState [1])
    [Op.textMessage 5 "Eve" "eve" "hi" 0 3 4,
     Op.textMessage 5 "Eve" "eve" "7" 1 5 5,
     Op.banCmd 1 5]

/-- A reachable state in which user 6 was banned for failing
verification three times (answer was "4", they sent "9" thrice). -/
def c1bState : MState :=
  applyOps (initState [1])
    [Op.textMessage 6 "Mal" "mal" "hi" 0 2 2,
     Op.textMessage 6 "Mal" "mal" "9" 1 2 2,
     Op.textMessage 6 "Mal" "mal" "9" 2 2 2,
     Op.textMessage 6 "Mal" "mal" "9" 3 2 2]

/-- C1 (code-bug evidence): the plain-text pipeline never consults the
banned/muted sets. Banned verified user 5's message "hello" produces no
banned notice (no effect at all), is recorded in the flood window, and
proceeds to normal processing; banned unverified user 6 is even issued
a fresh verification challenge instead of being blocked. -/
theorem banned_user_text_not_blocked :
    c1State.bannedUsers 5 = true
    ∧ c1State.verifiedUsers 5 = true
    ∧ c1State.adminIds 5 = false
    ∧ (handle_message_moderation c1State 5 "Eve" "eve" "hello" 2 3 4).effects = []
    ∧ (handle_message_moderation c1State 5 "Eve" "eve" "hello" 2 3 4).passed = true
    ∧ (handle_message_moderation c1State 5 "Eve" "eve" "hello" 2 3 4).state.userMessages 5 = [2]
    ∧ c1bState.bannedUsers 6 = true
    ∧ ((handle_message_moderation c1bState 6 "Mal" "mal" "hey" 9 2 2).state.pendingVerification 6).isSome
        = true := by
  decide

/-- C7: for a verified non-admin user whose message the flood check
flags, `moderate_message` adds exactly one warning and stops processing
(no keyword or pattern check); at three or more cumulative warnings the
user is muted, the "MUTED" row is logged and admins are notified, and
below three only the rate-limit warning reply is sent; in both cases
the offending message is deleted. -/
theorem flood_flag_escalation
    (s : MState) (uid : Nat) (fn un text : String) (now n1 n2 : Nat)
    (hadm : is_admin s uid = false)
    (hver : (is_user_verified s uid || s.verifiedUsers uid) = true)
    (hfl : (is_flood_spam (s.userMessages uid) now text).flagged = true) :
    (moderate_message s uid fn un text now n1 n2).state.userWarnings uid
        = s.userWarnings uid + 1
    ∧ (moderate_message s uid fn un text now n1 n2).passed = false
    ∧ (s.userWarnings uid + 1 ≥ 3 →
        (moderate_message s uid fn un text now n1 n2).state.mutedUsers uid = true
        ∧ (moderate_message s uid fn un text now n1 n2).state.modLog
            = s.modLog ++ [⟨uid, "MUTED", "Flood spam (3 warnings)", none⟩]
        ∧ (moderate_message s uid fn un text now n1 n2).effects
            = [Effect.reply s!"🔇 {fn} has been muted for flood spamming!",
               Effect.notifyAdmins s!"🚨 User {fn} (@{un}) muted for flood spam",
               Effect.deleteMessage])
    ∧ (s.userWarnings uid + 1 < 3 →
        (moderate_message s uid fn un text now n1 n2).state.mutedUsers = s.mutedUsers
        ∧ (moderate_message s uid fn un text now n1 n2).state.modLog = s.modLog
        ∧ ∃ w, w = s.userWarnings uid + 1
            ∧ (moderate_message s uid fn un text now n1 n2).effects
              = [Effect.reply s!"⚠️ Warning {w}/3: Please slow down your messages!",
                 Effect.deleteMessage]) := by
  have hguard : (!is_user_verified s uid && !s.verifiedUsers uid) = false := by
    cases h1 : is_user_verified s uid <;> cases h2 : s.verifiedUsers uid <;>
      simp_all
  by_cases h3 : s.userWarnings uid + 1 ≥ 3
  · refine ⟨?_, ?_, fun _ => ⟨?_, ?_, ?_⟩, fun hlt => absurd h3 (by omega)⟩ <;>
      simp [moderate_message, hadm, hguard, hfl, h3, add_warning, mute_user,
        log_moderation_action, fnUpdate]
  · refine ⟨?_, ?_, fun hge => absurd hge h3,
      fun _ => ⟨?_, ?_, ⟨s.userWarnings uid + 1, rfl, ?_⟩⟩⟩ <;>
      simp [moderate_message, hadm, hguard, hfl, h3, add_warning, mute_user,
        log_moderation_action, fnUpdate]

/-- A state whose verified non-admin user 7 already has eleven recent
window entries, so the next message floods, and no prior warnings. -/
def c7State : MState :=
  { initState [] with
    userMessages := fun u => if u == 7 then [100, 100, 100, 100, 100, 100, 100, 100, 100, 100, 100] else []
    verifiedUsers := fun u => u == 7 }

/-- Witness for C7: user 7's twelfth message within a minute is
flagged, earns warning 1, and only the rate-limit reply plus deletion
happen. -/
theorem flood_flag_escalation_witness :
    is_admin c7State 7 = false
    ∧ (is_user_verified c7State 7 || c7State.verifiedUsers 7) = true
    ∧ (is_flood_spam (c7State.userMessages 7) 101 "hi").flagged = true
    ∧ ((moderate_message c7State 7 "Sam" "sam" "hi" 101 3 4).state.userWarnings 7
        = c7State.userWarnings 7 + 1
      ∧ (moderate_message c7State 7 "Sam" "sam" "hi" 101 3 4).passed = false
      ∧ (c7State.userWarnings 7 + 1 ≥ 3 →
          (moderate_message c7State 7 "Sam" "sam" "hi" 101 3 4).state.mutedUsers 7 = true
          ∧ (moderate_message c7State 7 "Sam" "sam" "hi" 101 3 4).state.modLog
              = c7State.modLog ++ [⟨7, "MUTED", "Flood spam (3 warnings)", none⟩]
          ∧ (moderate_message c7State 7 "Sam" "sam" "hi" 101 3 4).effects
              = [Effect.reply s!"🔇 Sam has been muted for flood spamming!",
                 Effect.notifyAdmins s!"🚨 User Sam (@sam) muted for flood spam",
                 Effect.deleteMessage])
      ∧ (c7State.userWarnings 7 + 1 < 3 →
          (moderate_message c7State 7 "Sam" "sam" "hi" 101 3 4).state.mutedUsers = c7State.mutedUsers
          ∧ (moderate_message c7State 7 "Sam" "sam" "hi" 101 3 4).state.modLog = c7State.modLog
          ∧ ∃ w, w = c7State.userWarnings 7 + 1
              ∧ (moderate_message c7State 7 "Sam" "sam" "hi" 101 3 4).effects
                = [Effect.reply s!"⚠️ Warning {w}/3: Please slow down your messages!",
                   Effect.deleteMessage])) :=
  ⟨by decide, by decide, by decide,
   flood_flag_escalation c7State 7 "Sam" "sam" "hi" 101 3 4 (by decide) (by decide) (by decide)⟩

/-- `handle_new_user_verification` never touches the verified set. -/
theorem hnuv_verified (s : MState) (uid : Nat) (fn : String) (now n1 n2 : Nat) :
    (handle_new_user_verification s uid fn now n1 n2).state.verifiedUsers = s.verifiedUsers := by
  cases hp : s.pendingVerification uid <;> simp [handle_new_user_verification, hp]

/-- A verification attempt can only add to the verified set. -/
theorem hva_verified_mono (s : MState) (uid : Nat) (fn un text : String) (u : Nat)
    (h : s.verifiedUsers u = true) :
    (handle_verification_attempt s uid fn un text).state.verifiedUsers u = true := by
  cases hp : s.pendingVerification uid with
  | none =>
    rw [hva_no_pending s uid fn un text hp]
    exact h
  | some vd =>
    simp only [handle_verification_attempt, hp]
    split
    · simp only [set_user_verification, fnUpdate]
      split
      · rfl
      · exact h
    · split
      · simpa [log_moderation_action, ban_user] using h
      · simpa using h

/-- `moderate_message` never changes the verified set. -/
theorem mm_verified (s : MState) (uid : Nat) (fn un text : String) (now n1 n2 : Nat) :
    (moderate_message s uid fn un text now n1 n2).state.verifiedUsers = s.verifiedUsers := by
  simp only [moderate_message]
  split_ifs <;>
    simp [hnuv_verified, add_warning, mute_user, log_moderation_action]

/-- The command rate limiter never changes the verified set. -/
theorem crl_verified (s : MState) (uid now : Nat) :
    ((handle_command_rate_limit s uid now).2.1).verifiedUsers = s.verifiedUsers := by
  simp only [handle_command_rate_limit]
  split_ifs <;> rfl

/-- C9: the verified set is monotone. `ban_user` leaves the verified
set untouched (so a user banned after verification stays verified), and
no inbound event or admin command ever removes a user from the verified
set. -/
theorem verified_set_monotone :
    (∀ (s : MState) (uid : Nat), (ban_user s uid).verifiedUsers = s.verifiedUsers)
    ∧ ∀ (s : MState) (op : Op) (u : Nat),
        s.verifiedUsers u = true → (applyOp s op).verifiedUsers u = true := by
  refine ⟨fun s uid => rfl, fun s op u h => ?_⟩
  cases op with
  | textMessage uid fn un text now n1 n2 =>
    simp only [applyOp, handle_message_moderation]
    split
    · exact hva_verified_mono s uid fn un text u h
    · rw [mm_verified]
      exact h
  | photoMessage uid fn un caption now n1 n2 =>
    simp only [applyOp]
    split
    · rw [mm_verified]
      exact h
    · exact h
  | commandEvent uid now =>
    simp only [applyOp]
    rw [crl_verified]
    exact h
  | addAdminCmd a t =>
    simp only [applyOp, add_admin_command]
    split_ifs <;> simpa [log_moderation_action, add_admin] using h
  | muteCmd a t =>
    simp only [applyOp, mute_user_command]
    split_ifs <;> simpa [log_moderation_action, mute_user] using h
  | unmuteCmd a t =>
    simp only [applyOp, unmute_user_command]
    split_ifs <;> simpa [log_moderation_action, unmute_user] using h
  | banCmd a t =>
    simp only [applyOp, ban_user_command]
    split_ifs <;> simpa [log_moderation_action, ban_user] using h
  | unbanCmd a t =>
    simp only [applyOp, unban_user_command]
    split_ifs <;> simpa [log_moderation_action, unban_user] using h

/-- The invariant of C10: every pending verification entry has at most
two recorded failed attempts. -/
def PendingInv (s : MState) : Prop :=
  ∀ u e, s.pendingVerification u = some e → e.attempts ≤ 2

/-- Issuing a challenge preserves the attempt bound: fresh entries
start at zero attempts. -/
theorem hnuv_pending_inv (s : MState) (uid : Nat) (fn : String) (now n1 n2 : Nat)
    (h : PendingInv s) :
    PendingInv (handle_new_user_verification s uid fn now n1 n2).state := by
  intro u e he
  cases hp : s.pendingVerification uid with
  | some vd =>
    simp only [handle_new_user_verification, hp] at he
    exact h u e he
  | none =>
    simp only [handle_new_user_verification, hp] at he
    rcases fnUpdate_cases s.pendingVerification uid
      (some ⟨(generate_captcha n1 n2).2, 0, now⟩) u with hx | hx <;> rw [hx] at he
    · cases he
      simp
    · exact h u e he

/-- A verification attempt preserves the attempt bound: entries that
reach three failures are deleted in the same step, surviving entries
hold at most two. -/
theorem hva_pending_inv (s : MState) (uid : Nat) (fn un text : String)
    (h : PendingInv s) :
    PendingInv (handle_verification_attempt s uid fn un text).state := by
  intro u e he
  cases hp : s.pendingVerification uid with
  | none =>
    rw [hva_no_pending s uid fn un text hp] at he
    exact h u e he
  | some vd =>
    simp only [handle_verification_attempt, hp] at he
    split at he
    · simp only [set_user_verification] at he
      rcases fnUpdate_cases s.pendingVerification uid none u with hx | hx <;> rw [hx] at he
      · cases he
      · exact h u e he
    · split at he
      · simp only [log_moderation_action, ban_user] at he
        rcases fnUpdate_cases s.pendingVerification uid none u with hx | hx <;> rw [hx] at he
        · cases he
        · exact h u e he
      · next h3 =>
        dsimp only at he
        rcases fnUpdate_cases s.pendingVerification uid
          (some { vd with attempts := vd.attempts + 1 }) u with hx | hx <;> rw [hx] at he
        · cases he
          simp only
          omega
        · exact h u e he

/-- `moderate_message` preserves the attempt bound. -/
theorem mm_pending_inv (s : MState) (uid : Nat) (fn un text : String) (now n1 n2 : Nat)
    (h : PendingInv s) :
    PendingInv (moderate_message s uid fn un text now n1 n2).state := by
  simp only [moderate_message]
  split_ifs <;>
    first
      | exact h
      | exact hnuv_pending_inv s uid fn now n1 n2 h

/-- C10: every pending verification entry holds at most two failed
attempts: the bound is preserved by every inbound event and admin
command, and therefore holds in every state reachable from the initial
state (where no entry exists). -/
theorem pending_attempts_bounded :
    (∀ (s : MState) (op : Op), PendingInv s → PendingInv (applyOp s op))
    ∧ ∀ (admins : List Nat) (ops : List Op), PendingInv (applyOps (initState admins) ops) := by
  have hstep : ∀ (s : MState) (op : Op), PendingInv s → PendingInv (applyOp s op) := by
    intro s op h
    cases op with
    | textMessage uid fn un text now n1 n2 =>
      intro u e he
      simp only [applyOp, handle_message_moderation] at he
      split at he
      · exact hva_pending_inv s uid fn un text h u e he
      · exact mm_pending_inv s uid fn un text now n1 n2 h u e he
    | photoMessage uid fn un caption now n1 n2 =>
      intro u e he
      simp only [applyOp] at he
      split at he
      · exact mm_pending_inv s uid fn un caption now n1 n2 h u e he
      · exact h u e he
    | commandEvent uid now =>
      intro u e he
      simp only [applyOp, handle_command_rate_limit] at he
      split_ifs at he <;> exact h u e he
    | addAdminCmd a t =>
      intro u e he
      simp only [applyOp, add_admin_command] at he
      split_ifs at he <;> exact h u e he
    | muteCmd a t =>
      intro u e he
      simp only [applyOp, mute_user_command] at he
      split_ifs at he <;> exact h u e he
    | unmuteCmd a t =>
      intro u e he
      simp only [applyOp, unmute_user_command] at he
      split_ifs at he <;> exact h u e he
    | banCmd a t =>
      intro u e he
      simp only [applyOp, ban_user_command] at he
      split_ifs at he <;> exact h u e he
    | unbanCmd a t =>
      intro u e he
      simp only [applyOp, unban_user_command] at he
      split_ifs at he <;> exact h u e he
  refine ⟨hstep, fun admins ops => ?_⟩
  have hinit : PendingInv (initState admins) := by
    intro u e he
    cases he
  have hfold : ∀ (l : List Op) (t : MState), PendingInv t → PendingInv (applyOps t l) := by
    intro l
    induction l with
    | nil => exact fun t ht => ht
    | cons op rest ih => exact fun t ht => ih (applyOp t op) (hstep t op ht)
  exact hfold ops (initState admins) hinit
